import Mathlib

/-!
Verification development for the InstaOsint data-extraction and
report-assembly pipeline (src/InstaOsint.py, class InstagramOSINT).

The Python code is shallowly embedded as follows:

* JSON values handed around by the script (the parsed `window._sharedData`
  blob, the projected profile/post dictionaries' field values) are modelled
  by the inductive type `Json`.
* Python dictionary/list item access and `dict.get` are modelled by
  `getItem`, `getIndex` and `dictGet`; they return `Except PyErr Json`,
  where `PyErr` enumerates the exception classes the script can raise
  (`KeyError`, `IndexError`, `TypeError`, `AttributeError`, `ValueError`).
  Only `KeyError` is ever caught by the script (`except KeyError`), so
  every other error propagates out of the modelled functions.
* Network I/O is factored out: each fetch-dependent function takes the
  already-extracted blob (`Option Json`; `none` models an extraction
  failure of `get_shared_data`) as an explicit argument.
* Floats: the single float computation (the per-post engagement rate) is
  modelled over `ℚ`; the values the claims are about are exactly
  representable, so no rounding behaviour is lost.
-/

/-- Exception classes that the script can raise.  The script's
`except KeyError` handlers catch exactly `keyError`; all other
constructors model uncaught exceptions. -/
inductive PyErr where
  | keyError
  | indexError
  | typeError
  | attributeError
  | valueError
  deriving DecidableEq, Repr

/-- JSON-like values, as produced by `json.loads` on the embedded
`window._sharedData` blob.  Numbers are modelled as integers (the script
only ever consumes integer counters). -/
inductive Json where
  | null
  | bool (b : Bool)
  | num (n : Int)
  | str (s : String)
  | arr (xs : List Json)
  | obj (fields : List (String × Json))

/-- Python truthiness of a value, as used by `if caption_edges:`,
`if profile.get('biography'):`, `... or 'Personal'` and friends. -/
def pyTruthy : Json → Bool
  | .null => false
  | .bool b => b
  | .num n => n != 0
  | .str s => s != ""
  | .arr xs => !xs.isEmpty
  | .obj kvs => !kvs.isEmpty

/-- Python `x[k]` with a string key `k`: succeeds only on a dict holding
the key; raises `KeyError` on a dict without it, `TypeError` on every
non-dict (`list indices must be integers`, `string indices must be
integers`, subscripting `None`/numbers/booleans). -/
def getItem (j : Json) (k : String) : Except PyErr Json :=
  match j with
  | .obj kvs =>
    match kvs.lookup k with
    | some v => .ok v
    | none => .error .keyError
  | _ => .error .typeError

/-- Python `x[i]` with a non-negative integer index: indexes lists and
strings (`IndexError` out of range), raises `KeyError` on a string-keyed
dict (the integer is not among its keys) and `TypeError` otherwise. -/
def getIndex (j : Json) (i : Nat) : Except PyErr Json :=
  match j with
  | .arr xs =>
    match xs[i]? with
    | some v => .ok v
    | none => .error .indexError
  | .str s =>
    match s.data[i]? with
    | some c => .ok (.str (String.mk [c]))
    | none => .error .indexError
  | .obj _ => .error .keyError
  | _ => .error .typeError

/-- Python `x.get(k, d)`: only dictionaries have a `get` attribute, so a
non-dict receiver raises `AttributeError`; on a dict the stored value is
returned even when it is `None`, and the default only fires when the key
is absent. -/
def dictGet (j : Json) (k : String) (d : Json) : Except PyErr Json :=
  match j with
  | .obj kvs => .ok ((kvs.lookup k).getD d)
  | _ => .error .attributeError

/-- Python `x[:n]` for `n ≥ 0`: slices lists and strings, raises
`TypeError` for every other receiver (`posts[:limit]` in
`get_recent_posts`). -/
def pySlice (j : Json) (n : Nat) : Except PyErr (List Json) :=
  match j with
  | .arr xs => .ok (xs.take n)
  | .str s => .ok ((s.data.take n).map fun c => .str (String.mk [c]))
  | _ => .error .typeError

/-- ASCII reading of the regex class `\w` used by the `#\w+` / `@\w+`
patterns (letters, digits, underscore). -/
def isWordChar (c : Char) : Bool := c.isAlpha || c.isDigit || c = '_'

/-- The scan performed by `re.findall(r'#\w+', caption)` (and the `@`
variant), over the caption's characters: at every occurrence of the
marker `m` that is immediately followed by at least one word character,
the marker together with the maximal word-character run after it is
emitted, in scan order and with duplicates kept.  Matches of these
patterns can never overlap (a word-character run never contains the
marker), so advancing the scan one character at a time yields exactly
`re.findall`'s non-overlapping match list. -/
def findTokens (m : Char) : List Char → List (List Char)
  | [] => []
  | c :: rest =>
    if c = m ∧ rest.takeWhile isWordChar ≠ [] then
      (m :: rest.takeWhile isWordChar) :: findTokens m rest
    else
      findTokens m rest

/-- Declarative description of "`t` is a `#token`/`@token` of `caption`":
`t` is the marker followed by a non-empty run of word characters, occurs
verbatim (casing included) as a contiguous substring of `caption`, and
the run is maximal to the right (the next character, if any, is not a
word character). -/
def isTokenOf (m : Char) (caption t : List Char) : Prop :=
  ∃ pre w post,
    t = m :: w ∧ w ≠ [] ∧ (∀ x ∈ w, isWordChar x = true) ∧
    caption = pre ++ t ++ post ∧
    (∀ d, post.head? = some d → isWordChar d = false)

/-- The projected profile record built by `get_profile_info` (lines
177-191).  Every key of the Python dict literal is a field; field values
keep the raw JSON value that `user.get(...)` produced (which is why a
field can hold `Json.null`).  `timestamp` holds the
`datetime.now().isoformat()` string, passed in as the `now` argument. -/
structure ProfileInfo where
  username : Json
  full_name : Json
  biography : Json
  followers : Json
  following : Json
  posts : Json
  is_private : Json
  is_verified : Json
  profile_pic_url : Json
  external_url : Json
  is_business_account : Json
  category_name : Json
  timestamp : String

/-- The navigation `shared_data['entry_data']['ProfilePage'][0]['graphql']['user']`
shared by `get_profile_info` and `get_recent_posts`. -/
def navigateUser (sd : Json) : Except PyErr Json := do
  let ed ← getItem sd "entry_data"
  let pp ← getItem ed "ProfilePage"
  let p0 ← getIndex pp 0
  let gq ← getItem p0 "graphql"
  getItem gq "user"

/-- The field projection of `get_profile_info`'s dict literal, evaluated
in source order.  Single-level `user.get(field)` calls succeed on any
dict; the chained `user.get(wrapper, {}).get('count')` calls raise
`AttributeError` when the wrapper value is present but not a dict
(e.g. `None.get('count')`). -/
def projectUser (now : String) (user : Json) : Except PyErr ProfileInfo := do
  let username ← dictGet user "username" .null
  let full_name ← dictGet user "full_name" .null
  let biography ← dictGet user "biography" .null
  let fw ← dictGet user "edge_followed_by" (.obj [])
  let followers ← dictGet fw "count" .null
  let fl ← dictGet user "edge_follow" (.obj [])
  let following ← dictGet fl "count" .null
  let pm ← dictGet user "edge_owner_to_timeline_media" (.obj [])
  let posts ← dictGet pm "count" .null
  let is_private ← dictGet user "is_private" .null
  let is_verified ← dictGet user "is_verified" .null
  let profile_pic_url ← dictGet user "profile_pic_url_hd" .null
  let external_url ← dictGet user "external_url" .null
  let is_business_account ← dictGet user "is_business_account" .null
  let category_name ← dictGet user "category_name" .null
  pure { username, full_name, biography, followers, following, posts,
         is_private, is_verified, profile_pic_url, external_url,
         is_business_account, category_name, timestamp := now }

/-- The body of `get_profile_info`'s `try` block: navigate to the user
entity, then project it. -/
def buildProfile (now : String) (sd : Json) : Except PyErr ProfileInfo := do
  let user ← navigateUser sd
  projectUser now user

/-- Outcome of `get_profile_info`: the fully-built record, one of the two
single-field error dicts (`{'error': msg}`), or an uncaught exception
escaping the function (the `try` only has an `except KeyError` arm). -/
inductive ProfileResult where
  | ok (p : ProfileInfo)
  | errorMarker (msg : String)
  | raised (e : PyErr)

/-- `get_profile_info` (lines 166-199).  `shared = none` models
`get_shared_data` returning `None`. -/
def get_profile_info (now : String) (shared : Option Json) : ProfileResult :=
  match shared with
  | none => .errorMarker "Failed to fetch profile data"
  | some sd =>
    match buildProfile now sd with
    | .ok p => .ok p
    | .error .keyError => .errorMarker "Unexpected data format"
    | .error e => .raised e

/-- The projected post record built per edge by `get_recent_posts`
(lines 230-248).  `caption` keeps the raw JSON value stored in the dict;
`hashtags`/`mentions` are the `re.findall` results over the caption
text. -/
structure PostInfo where
  id : Json
  shortcode : Json
  timestamp : Json
  is_video : Json
  display_url : Json
  caption : Json
  comments : Json
  likes : Json
  hashtags : List String
  mentions : List String
  dimensions : Json

/-- Projection of one element of the media-edge list (lines 230-247),
with the caption extracted first (line 231-233) and the dict-literal
fields evaluated in source order.  `re.findall` applied to a non-string
caption raises `TypeError`, which happens while evaluating the
`'hashtags'` entry, after `'comments'`/`'likes'`. -/
def projectPost (post : Json) : Except PyErr PostInfo := do
  let node ← dictGet post "node" (.obj [])
  let cwrap ← dictGet node "edge_media_to_caption" (.obj [])
  let cEdges ← dictGet cwrap "edges" (.arr [])
  let caption ←
    if pyTruthy cEdges then do
      let c0 ← getIndex cEdges 0
      let cn ← dictGet c0 "node" (.obj [])
      dictGet cn "text" (.str "")
    else
      pure (Json.str "")
  let id ← dictGet node "id" .null
  let shortcode ← dictGet node "shortcode" .null
  let timestamp ← dictGet node "taken_at_timestamp" .null
  let is_video ← dictGet node "is_video" .null
  let display_url ← dictGet node "display_url" .null
  let cm ← dictGet node "edge_media_to_comment" (.obj [])
  let comments ← dictGet cm "count" (.num 0)
  let lk ← dictGet node "edge_liked_by" (.obj [])
  let likes ← dictGet lk "count" (.num 0)
  let capStr ←
    match caption with
    | .str s => pure s
    | _ => Except.error PyErr.typeError
  let dims ← dictGet node "dimensions" (.obj [])
  pure { id, shortcode, timestamp, is_video, display_url, caption,
         comments, likes,
         hashtags := (findTokens '#' capStr.data).map fun l => String.mk l,
         mentions := (findTokens '@' capStr.data).map fun l => String.mk l,
         dimensions := dims }

/-- The sequential per-edge loop of `get_recent_posts`: stops at the
first raised exception, as the Python `for` loop does. -/
def projectPosts : List Json → Except PyErr (List PostInfo)
  | [] => .ok []
  | e :: es => do
    let p ← projectPost e
    let ps ← projectPosts es
    pure (p :: ps)

/-- Navigation of `get_recent_posts` down to the media-edge list:
`user.get('edge_owner_to_timeline_media', {}).get('edges', [])`
(lines 226-227). -/
def getEdges (sd : Json) : Except PyErr Json := do
  let user ← navigateUser sd
  let media ← dictGet user "edge_owner_to_timeline_media" (.obj [])
  dictGet media "edges" (.arr [])

/-- The body of `get_recent_posts`'s `try` block: navigate to the edges,
slice to the limit, project each edge. -/
def postsBody (sd : Json) (limit : Nat) : Except PyErr (List PostInfo) := do
  let posts ← getEdges sd
  let sliced ← pySlice posts limit
  projectPosts sliced

/-- `get_recent_posts` (lines 219-255): `[]` when extraction failed,
`[]` when any `KeyError` is raised inside the `try` block, the projected
list on success, and a propagating exception otherwise. -/
def get_recent_posts (shared : Option Json) (limit : Nat) :
    Except PyErr (List PostInfo) :=
  match shared with
  | none => .ok []
  | some sd =>
    match postsBody sd limit with
    | .ok l => .ok l
    | .error .keyError => .ok []
    | .error e => .error e

/-- Python's implicit integer coercion in arithmetic: `bool` is an `int`
subtype, everything else raises `TypeError` when added to or compared
with an `int`. -/
def asIntE (j : Json) : Except PyErr Int :=
  match j with
  | .num n => .ok n
  | .bool b => .ok (if b then 1 else 0)
  | _ => .error .typeError

/-- The per-post engagement-rate expression of `download_media`
(line 442):
`(post.get('likes', 0) + post.get('comments', 0)) / max(profile.get('followers', 1), 1) * 100`.
Both records always carry the `likes`/`comments`/`followers` keys (the
`.get` defaults never fire), so the stored values are used: the sum is
evaluated first, then `max(followers, 1)` — which raises `TypeError`
when `followers` is `None`. -/
def engagement_rate (post : PostInfo) (profile : ProfileInfo) :
    Except PyErr ℚ := do
  let l ← asIntE post.likes
  let c ← asIntE post.comments
  let f ← asIntE profile.followers
  pure (((l : ℚ) + (c : ℚ)) / ((max f 1 : Int) : ℚ) * 100)

/-- Character class `[A-Za-z0-9._%+-]` (local part of the email
pattern in `extract_emails_from_bio`). -/
def isLocalChar (c : Char) : Bool :=
  c.isAlpha || c.isDigit || c = '.' || c = '_' || c = '%' || c = '+' || c = '-'

/-- Character class `[A-Za-z0-9.-]` (domain part of the email pattern). -/
def isDomainChar (c : Char) : Bool :=
  c.isAlpha || c.isDigit || c = '.' || c = '-'

/-- Character class `[A-Z|a-z]` of the email pattern's top-level-domain
part — the class literally contains `|`, as written in the source. -/
def isTldChar (c : Char) : Bool := c.isAlpha || c = '|'

/-- Word-ness of an optional character; the ends of the string count as
non-word for `\b`. -/
def isWordOpt : Option Char → Bool
  | some c => isWordChar c
  | none => false

/-- The regex `\b` assertion between two (optional) characters. -/
def wordBoundary (a b : Option Char) : Bool := isWordOpt a != isWordOpt b

/-- Backtracking of the greedy `[A-Z|a-z]{2,}\b` suffix over `t`: try the
longest class run first and shrink until the trailing word boundary
holds; at least two characters must be consumed.  The argument is the
candidate consumption length to try next. -/
def tailTry (t : List Char) : Nat → Option Nat
  | 0 => none
  | k + 1 =>
    if k + 1 ≥ 2 ∧ wordBoundary t[k]? t[k + 1]? then some (k + 1)
    else tailTry t k

/-- Backtracking of the greedy `[A-Za-z0-9.-]+\.` part: `R` is the
maximal domain-class run after the `@` and `S` the rest of the input;
try the dot positions inside `R` from right to left (the greedy `+`
tries the longest prefix first), at each one requiring the
`[A-Z|a-z]{2,}\b` suffix to match on the characters after the dot.
Returns the chosen dot index (≥ 1, so the `+` is non-empty) and the
consumed suffix length. -/
def dotTry (R S : List Char) : Nat → Option (Nat × Nat)
  | 0 => none
  | j + 1 =>
    if R[j + 1]? = some '.' then
      let t := R.drop (j + 2) ++ S
      match tailTry t (t.takeWhile isTldChar).length with
      | some l => some (j + 1, l)
      | none => dotTry R S j
    else dotTry R S j

/-- One anchored attempt of the email pattern at the current position:
`prev` is the character before the position (for the leading `\b`).  On
success, returns the matched characters and the remaining input.  The
local part needs no backtracking (`@` is not in the local class, so the
greedy run ends exactly at the only place `@` can be). -/
def matchEmail (prev : Option Char) (s : List Char) :
    Option (List Char × List Char) :=
  if wordBoundary prev s.head? then
    let localPart := s.takeWhile isLocalChar
    if localPart.isEmpty then none
    else
      match s.dropWhile isLocalChar with
      | '@' :: s3 =>
        let R := s3.takeWhile isDomainChar
        let S := s3.dropWhile isDomainChar
        match dotTry R S (R.length - 1) with
        | some (j, l) =>
          let afterDot := R.drop (j + 1) ++ S
          let tok := localPart ++ '@' :: (R.take j ++ '.' :: afterDot.take l)
          some (tok, afterDot.drop l)
        | none => none
      | _ => none
  else none

/-- Left-to-right scan of `re.findall(email_pattern, bio)`: attempt a
match at every position, emit each match (duplicates kept, scan order)
and continue after its end.  Structured with a fuel argument that the
wrapper instantiates with more than the input length; every step
consumes at least one character, so the fuel never runs out. -/
def findEmailsAux : Nat → Option Char → List Char → List (List Char)
  | 0, _, _ => []
  | _ + 1, _, [] => []
  | fuel + 1, prev, c :: rest =>
    match matchEmail prev (c :: rest) with
    | some (tok, after) => tok :: findEmailsAux fuel tok.getLast? after
    | none => findEmailsAux fuel (some c) rest

/-- `re.findall(r'\b[A-Za-z0-9._%+-]+@[A-Za-z0-9.-]+\.[A-Z|a-z]{2,}\b', bio)`. -/
def findEmails (bio : String) : List String :=
  (findEmailsAux (bio.data.length + 1) none bio.data).map fun l => String.mk l

/-- The part of `extract_emails_from_bio` (lines 201-217) after the
profile fetch: `bio = profile.get('biography', '')` (the default fires
only on the error dict, which lacks the key), the `re.findall` scan
(raising `TypeError` on a non-string biography such as `None`), the
conditional snapshot write, and the deduplicated return value
`list(set(emails))`.  The result pairs the returned list with the
`emails_found` list of the snapshot written (`none` when no snapshot is
written); the returned list is modelled by `List.dedup` since the
iteration order of a Python `set` is not significant. -/
def extract_emails_pair (pr : ProfileResult) :
    Except PyErr (List String × Option (List String)) :=
  match pr with
  | .raised e => .error e
  | .errorMarker _ =>
    let emails := findEmails ""
    .ok (emails.dedup, if emails.isEmpty then none else some emails)
  | .ok p =>
    match p.biography with
    | .str s =>
      let emails := findEmails s
      .ok (emails.dedup, if emails.isEmpty then none else some emails)
    | _ => .error .typeError

/-- Decimal digits of a natural number, most significant first; the fuel
is instantiated above the digit count so it never runs out. -/
def natDigits : Nat → Nat → List Char
  | 0, _ => []
  | _ + 1, 0 => []
  | fuel + 1, n => natDigits fuel (n / 10) ++ [Char.ofNat (48 + n % 10)]

/-- Python `str(n)` on a non-negative integer. -/
def natToStr (n : Nat) : String :=
  if n = 0 then "0" else String.mk (natDigits (n + 1) n)

/-- Python `str(n)` on an integer. -/
def intToStr (n : Int) : String :=
  if n < 0 then "-" ++ natToStr n.natAbs else natToStr n.natAbs

/-- Insert the thousands separators of Python's `format(n, ',')` into a
reversed (least-significant-first) digit list. -/
def commaRev : Nat → List Char → List Char
  | _, [] => []
  | i, c :: rest =>
    if (i + 1) % 3 = 0 ∧ rest ≠ [] then c :: ',' :: commaRev (i + 1) rest
    else c :: commaRev (i + 1) rest

/-- Python `f"{n:,}"` on a natural number. -/
def formatCommaN (n : Nat) : String :=
  String.mk ((commaRev 0 (natToStr n).data.reverse).reverse)

/-- Python `f"{n:,}"` on an integer. -/
def formatComma (n : Int) : String :=
  if n < 0 then "-" ++ formatCommaN n.natAbs else formatCommaN n.natAbs

/-- Python `f"{value:,}"` on a record field value: integers (and their
`bool` subtype) format, `None` raises `TypeError` (unsupported format
string) and strings/containers raise `ValueError` (comma not allowed). -/
def formatCommaJ (j : Json) : Except PyErr String :=
  match j with
  | .num n => .ok (formatComma n)
  | .bool b => .ok (if b then "1" else "0")
  | .str _ => .error .valueError
  | _ => .error .typeError

/-- A single-quote character, kept out of string literals. -/
def sQuote : String := String.mk [Char.ofNat 39]

/-- Python `repr` of a JSON value, used inside container rendering.  The
fuel bounds the recursion and is far above any value this development
builds; list/dict spines are rendered by recursing on the remaining
container, dropping the opening bracket of the rendered tail. -/
def pyReprJ : Nat → Json → String
  | 0, _ => ""
  | _ + 1, .null => "None"
  | _ + 1, .bool b => if b then "True" else "False"
  | _ + 1, .num n => intToStr n
  | _ + 1, .str s => sQuote ++ s ++ sQuote
  | _ + 1, .arr [] => "[]"
  | fuel + 1, .arr [x] => "[" ++ pyReprJ fuel x ++ "]"
  | fuel + 1, .arr (x :: xs) =>
    "[" ++ pyReprJ fuel x ++ ", " ++ (pyReprJ fuel (.arr xs)).drop 1
  | _ + 1, .obj [] => "\x7b\x7d"
  | fuel + 1, .obj ((k, v) :: kvs) =>
    "\x7b" ++ sQuote ++ k ++ sQuote ++ ": " ++ pyReprJ fuel v ++
      (match kvs with
       | [] => "\x7d"
       | _ => ", " ++ (pyReprJ fuel (.obj kvs)).drop 1)

/-- Python `str` of a JSON value as interpolated by an f-string:
identical to `repr` except that a string is rendered without quotes. -/
def pyStr (j : Json) : String :=
  match j with
  | .str s => s
  | _ => pyReprJ 1000 j

/-- Python `f"{key:<12}"`: left-justify to the given width. -/
def padRight (s : String) (w : Nat) : String :=
  s ++ String.mk (List.replicate (w - s.length) ' ')

/-- A string of `n` copies of a character (`"=" * 70` and friends). -/
def repChar (n : Nat) (c : Char) : String := String.mk (List.replicate n c)

/-- Whether `needle` occurs as a contiguous substring of the character
list (Python's `in` on strings). -/
def strContainsL (needle : List Char) : List Char → Bool
  | [] => needle.isEmpty
  | c :: t => needle.isPrefixOf (c :: t) || strContainsL needle t

/-- Python `needle in hay` on strings. -/
def strContains (hay needle : String) : Bool := strContainsL needle.data hay.data

/-- Python `sum(...)` over the stored `likes`/`comments` values of the
projected posts: integer addition, with `bool` coerced and any other
value raising `TypeError`. -/
def pySum (acc : Int) : List Json → Except PyErr Int
  | [] => .ok acc
  | j :: rest =>
    match j with
    | .num n => pySum (acc + n) rest
    | .bool b => pySum (acc + (if b then 1 else 0)) rest
    | _ => .error .typeError

/-- A persisted artifact, as written by `save_json_data`/`save_report`:
the structured payload rather than its serialized bytes. -/
inductive WriteData where
  | profileData (p : ProfileInfo)
  | emailData (target : String) (emails : List String) (timestamp : String)
  | postsData (posts : List PostInfo)
  | reportText (content : String)

/-- Path produced by `save_json_data`:
`<base>/data/<target>_<kind>_<timestamp>.json`. -/
def mkDataPath (baseDir target kind ts : String) : String :=
  baseDir ++ "/data/" ++ target ++ "_" ++ kind ++ "_" ++ ts ++ ".json"

/-- Path produced by `save_report`:
`<base>/reports/<target>_<kind>_<timestamp>.txt`. -/
def mkReportPath (baseDir target kind ts : String) : String :=
  baseDir ++ "/reports/" ++ target ++ "_" ++ kind ++ "_" ++ ts ++ ".txt"

/-- `get_downloaded_files_section` (lines 544-571) over the current
`downloaded_files` list. -/
def get_downloaded_files_section (files : List String) : String :=
  if files.isEmpty then "  ❌ No files downloaded yet"
  else
    let reports := files.filter fun f => strContains f "/reports/"
    let dataFiles := files.filter fun f => strContains f "/data/"
    let downloads := files.filter fun f => strContains f "/downloads/"
    let s1 :=
      if reports.isEmpty then []
      else "  📄 Reports:" :: reports.map fun f => "     📎 " ++ f
    let s2 :=
      if dataFiles.isEmpty then []
      else "  📊 Data Files:" :: dataFiles.map fun f => "     📎 " ++ f
    let s3 :=
      if downloads.isEmpty then []
      else "  🖼️  Media Downloads:" :: downloads.map fun f => "     📎 " ++ f
    String.intercalate "\n"
      (s1 ++ s2 ++ s3 ++ ["\n  📁 Total Files: " ++ natToStr files.length])

/-- The snapshot write performed inside `get_profile_info` (line 193) on
a successful parse. -/
def profileWrites (pr : ProfileResult) (baseDir target ts : String) :
    List (String × WriteData) :=
  match pr with
  | .ok p => [(mkDataPath baseDir target "profile" ts, .profileData p)]
  | _ => []

/-- The profile section of `generate_report` (lines 584-605): the error
line on an error dict, otherwise the fixed display entries (count fields
formatted with thousands separators — raising on a `None` count, exactly
as Python's `f"{None:,}"` does) followed by the optional bio line. -/
def profileSection (pr : ProfileResult) : Except PyErr (List String) :=
  match pr with
  | .raised e => .error e
  | .errorMarker s => .ok ["  ❌ Error: " ++ s]
  | .ok p => do
    let fw ← formatCommaJ p.followers
    let fg ← formatCommaJ p.following
    let pc ← formatCommaJ p.posts
    let kv : List (String × String) :=
      [("Username", pyStr p.username),
       ("Full Name", pyStr p.full_name),
       ("Followers", fw),
       ("Following", fg),
       ("Posts", pc),
       ("Private", if pyTruthy p.is_private then "Yes" else "No"),
       ("Verified", if pyTruthy p.is_verified then "Yes" else "No"),
       ("Business", if pyTruthy p.is_business_account then "Yes" else "No"),
       ("Category",
        if pyTruthy p.category_name then pyStr p.category_name else "Personal")]
    let lines := kv.map fun x => "  " ++ padRight x.1 12 ++ ": " ++ x.2
    let bioLine :=
      if pyTruthy p.biography then ["  Bio: " ++ pyStr p.biography] else []
    pure (lines ++ bioLine)

/-- `get_recent_posts` together with the fact of its snapshot write
(line 250): the snapshot is written exactly when the `try` body runs to
completion, even for an empty post list; it is skipped when extraction
failed or a `KeyError` was caught. -/
def recentPostsW (shared : Option Json) (limit : Nat) :
    Except PyErr (List PostInfo × Bool) :=
  match shared with
  | none => .ok ([], false)
  | some sd =>
    match postsBody sd limit with
    | .ok l => .ok (l, true)
    | .error .keyError => .ok ([], false)
    | .error e => .error e

/-- The recent-posts section of `generate_report` (lines 617-627). -/
def postsSection (posts : List PostInfo) : Except PyErr (List String) :=
  if posts.isEmpty then
    .ok ["\n📷 [RECENT POSTS ANALYSIS]",
         "  ❌ No posts found or account is private"]
  else do
    let tl ← pySum 0 (posts.map fun p => p.likes)
    let tc ← pySum 0 (posts.map fun p => p.comments)
    pure ["\n📷 [RECENT POSTS ANALYSIS]",
          "  📊 Analyzed " ++ natToStr posts.length ++ " recent posts",
          "  ❤️  Total Likes: " ++ formatComma tl,
          "  💬 Total Comments: " ++ formatComma tc,
          "  📈 Avg Likes/Post: " ++ formatComma (Int.fdiv tl posts.length)]

/-- Everything `generate_report` produces: the returned text, the path
and body of the persisted report, and every artifact written during the
invocation, in order. -/
structure ReportOut where
  report : String
  reportPath : String
  savedReport : String
  writes : List (String × WriteData)

/-- `generate_report` (lines 573-642).  The three internal fetches (the
direct profile fetch, the refetch inside `extract_emails_from_bio`, and
the fetch inside `get_recent_posts`) all receive the same extracted blob
`shared`; `now` is the rendered generation time and `ts` the filename
timestamp; the session starts with an empty `downloaded_files` list.  An
exception raised by any inner step propagates (the function has no
handler of its own). -/
def generate_report (shared : Option Json) (target now ts baseDir : String) :
    Except PyErr ReportOut := do
  let eq70 := repChar 70 '='
  let header :=
    [eq70,
     "📊 OSINT REPORT FOR: @" ++ target,
     "🕒 Generated: " ++ now,
     "👩‍💻 Created by: AvaBlix",
     "📁 Base Directory: " ++ baseDir,
     eq70,
     "\n👤 [PROFILE INFORMATION]"]
  let pr := get_profile_info now shared
  let w1 := profileWrites pr baseDir target ts
  let profLines ← profileSection pr
  let pr2 := get_profile_info now shared
  let w2 := profileWrites pr2 baseDir target ts
  let ep ← extract_emails_pair pr2
  let w3 :=
    match ep.2 with
    | some raw => [(mkDataPath baseDir target "emails" ts,
                    WriteData.emailData target raw now)]
    | none => []
  let emailLines :=
    "\n📧 [EMAIL EXTRACTION]" ::
      (if ep.1.isEmpty then ["  ❌ No emails found in bio"]
       else ep.1.map fun e => "  📩 " ++ e)
  let pw ← recentPostsW shared 6
  let w4 :=
    if pw.2 then [(mkDataPath baseDir target "posts" ts,
                   WriteData.postsData pw.1)]
    else []
  let postsLines ← postsSection pw.1
  let filesSoFar := (w1 ++ w2 ++ w3 ++ w4).map Prod.fst
  let filesLines :=
    ["\n💾 [DOWNLOADED FILES]", get_downloaded_files_section filesSoFar]
  let body := String.intercalate "\n"
    (header ++ profLines ++ emailLines ++ postsLines ++ filesLines)
  let rPath := mkReportPath baseDir target "full_report" ts
  let writes := w1 ++ w2 ++ w3 ++ w4 ++ [(rPath, WriteData.reportText body)]
  let report := body ++ "\n\n✅ Report saved to: " ++ rPath ++
    "\n👩‍💻 Tool created by AvaBlix"
  pure { report := report, reportPath := rPath, savedReport := body,
         writes := writes }

/-- A blob with the canonical
`entry_data → ProfilePage → [0] → graphql → user` spine around the given
user entity. -/
def mkProfileBlob (user : Json) : Json :=
  .obj [("entry_data",
    .obj [("ProfilePage",
      .arr [.obj [("graphql", .obj [("user", user)])]])])]

/-- A blob whose `ProfilePage` list is empty: every dict key on the
navigation path exists, but the `[0]` step has nothing to index. -/
def emptyPPBlob : Json :=
  .obj [("entry_data", .obj [("ProfilePage", .arr [])])]

/-- A well-formed blob whose media-edge list contains a single `null`
edge. -/
def badEdgesBlob : Json :=
  mkProfileBlob (.obj [("edge_owner_to_timeline_media",
    .obj [("edges", .arr [.null])])])

/-- The record `projectPost` produces from an `{}` edge: every field at
its default. -/
def defaultPost : PostInfo :=
  { id := .null, shortcode := .null, timestamp := .null, is_video := .null,
    display_url := .null, caption := .str "", comments := .num 0,
    likes := .num 0, hashtags := [], mentions := [], dimensions := .obj [] }

/-- A blob with three trivially well-formed (empty-object) media edges. -/
def demoPostsBlob : Json :=
  mkProfileBlob (.obj [("edge_owner_to_timeline_media",
    .obj [("edges", .arr [.obj [], .obj [], .obj []])])])

/-- A profile record whose follower count is stored as `None` (the value
`user.get('edge_followed_by', {}).get('count')` yields when the count is
absent). -/
def prof0 : ProfileInfo :=
  { username := .str "u", full_name := .null, biography := .null,
    followers := .null, following := .null, posts := .null,
    is_private := .null, is_verified := .null, profile_pic_url := .null,
    external_url := .null, is_business_account := .null,
    category_name := .null, timestamp := "t" }

/-- A post with 5 likes and 0 comments. -/
def p0 : PostInfo := { defaultPost with likes := .num 5, comments := .num 0 }

/-- A post with 0 likes and 0 comments. -/
def zPost : PostInfo := { defaultPost with likes := .num 0, comments := .num 0 }

/-- A profile with followers stored as the integer 0. -/
def zProf : ProfileInfo := { prof0 with followers := .num 0 }

/-- The record `projectUser` produces from a user object that has a
`username` but no `biography` key. -/
def c9Rec : ProfileInfo :=
  { username := .str "u", full_name := .null, biography := .null,
    followers := .null, following := .null, posts := .null,
    is_private := .null, is_verified := .null, profile_pic_url := .null,
    external_url := .null, is_business_account := .null,
    category_name := .null, timestamp := "t" }

/-- A profile record whose biography text mentions the same address
twice. -/
def p10 : ProfileInfo :=
  { prof0 with biography := .str "mail me at bob@site.org and bob@site.org" }

/-- First synthetic post of the end-to-end report scenario: 10 likes,
1 comment. -/
def synPost1 : Json :=
  .obj [("node", .obj
    [("id", .str "1"),
     ("shortcode", .str "p1"),
     ("taken_at_timestamp", .num 1700000000),
     ("is_video", .bool false),
     ("display_url", .str "http://x/1.jpg"),
     ("edge_media_to_caption",
      .obj [("edges", .arr [.obj [("node", .obj [("text", .str "hello #sun")])]])]),
     ("edge_media_to_comment", .obj [("count", .num 1)]),
     ("edge_liked_by", .obj [("count", .num 10)]),
     ("dimensions", .obj [("height", .num 1080), ("width", .num 1080)])])]

/-- Second synthetic post of the end-to-end report scenario: 20 likes,
2 comments. -/
def synPost2 : Json :=
  .obj [("node", .obj
    [("id", .str "2"),
     ("shortcode", .str "p2"),
     ("taken_at_timestamp", .num 1700000100),
     ("is_video", .bool false),
     ("display_url", .str "http://x/2.jpg"),
     ("edge_media_to_caption",
      .obj [("edges", .arr [.obj [("node", .obj [("text", .str "bye @moon")])]])]),
     ("edge_media_to_comment", .obj [("count", .num 2)]),
     ("edge_liked_by", .obj [("count", .num 20)]),
     ("dimensions", .obj [("height", .num 1080), ("width", .num 1080)])])]

/-- The synthetic user entity of the end-to-end report scenario:
100 followers, the two posts above. -/
def synUser : Json :=
  .obj [("username", .str "target"),
        ("full_name", .str "Target Person"),
        ("biography", .str ""),
        ("edge_followed_by", .obj [("count", .num 100)]),
        ("edge_follow", .obj [("count", .num 10)]),
        ("edge_owner_to_timeline_media",
         .obj [("count", .num 2), ("edges", .arr [synPost1, synPost2])]),
        ("is_private", .bool false),
        ("is_verified", .bool false),
        ("profile_pic_url_hd", .str "http://x/pic.jpg"),
        ("external_url", .null),
        ("is_business_account", .bool false),
        ("category_name", .null)]

/-- The extracted blob of the end-to-end report scenario. -/
def synBlob : Json := mkProfileBlob synUser

/-- Transcription of claim C3's asserted outcome set ("returns either a
record ... or exactly a single-field error marker"), used only to state
its refutation: true on the record and error-marker outcomes, false on a
raised exception. -/
def isRecordOrMarker : ProfileResult → Bool
  | .ok _ => true
  | .errorMarker _ => true
  | .raised _ => false

/-- Transcription of claim C4's asserted outcome ("returns a sequence of
exactly min(n, k) post records"), used only to state its refutation:
true iff the call returned a list of the given length. -/
def isOkOfLength (r : Except PyErr (List PostInfo)) (k : Nat) : Bool :=
  match r with
  | .ok l => l.length == k
  | .error _ => false

/-- One simulated HTTP response: a status code with a body, or a
transport-level failure (`requests.exceptions.RequestException`). -/
inductive Resp where
  | status (code : Nat) (body : String)
  | transportError
  deriving DecidableEq, Repr

/-- `safe_request`, driven by the script of responses that successive
attempts of the same request would receive.  The result is the returned
response (`none` models Python's `None`) together with the log of retry
cooldown sleeps (`time.sleep(60)` for HTTP 429, `time.sleep(10)` for
5xx), in order.  The empty script is unreachable for a real server and
is mapped to `none`. -/
def safe_request : List Resp → Option Resp × List Nat
  | [] => (none, [])
  | .transportError :: _ => (none, [])
  | .status c b :: rest =>
    if c = 429 then
      let r := safe_request rest
      (r.1, 60 :: r.2)
    else if c = 404 then
      (none, [])
    else if c ≥ 500 then
      let r := safe_request rest
      (r.1, 10 :: r.2)
    else
      (some (.status c b), [])

/-! ## Helper lemmas -/

@[simp] theorem except_ok_bind {ε α β : Type} (a : α) (f : α → Except ε β) :
    (Except.ok a : Except ε α) >>= f = f a := rfl

@[simp] theorem except_error_bind {ε α β : Type} (e : ε) (f : α → Except ε β) :
    (Except.error e : Except ε α) >>= f = Except.error e := rfl

@[simp] theorem except_pure_eq {ε α : Type} (a : α) :
    (pure a : Except ε α) = Except.ok a := rfl

theorem safe_request_429 (b : String) (rest : List Resp) :
    safe_request (.status 429 b :: rest) =
      ((safe_request rest).1, 60 :: (safe_request rest).2) := rfl

theorem projectPosts_length :
    ∀ (l : List Json) (ps : List PostInfo),
      projectPosts l = Except.ok ps → l.length = ps.length := by
  intro l
  induction l with
  | nil =>
    intro ps h
    simp only [projectPosts] at h
    cases h
    rfl
  | cons e es ih =>
    intro ps h
    simp only [projectPosts] at h
    cases hp : projectPost e with
    | error err => rw [hp] at h; simp at h
    | ok p =>
      rw [hp] at h
      simp only [except_ok_bind] at h
      cases hps : projectPosts es with
      | error err => rw [hps] at h; simp at h
      | ok ps2 =>
        rw [hps] at h
        simp only [except_ok_bind, except_pure_eq, Except.ok.injEq] at h
        subst h
        simp [ih ps2 hps]

/-! ## Claims -/

/-- C7: a 429 response makes `safe_request` sleep the 60-second cooldown
and retry the same request; in particular a 429 followed by a 200 yields
the 200 response (whose body is the returned content) with the cooldown
slept once, and any number `k` of consecutive 429s yields `k` cooldown
sleeps before the eventual outcome — the retry policy is unbounded. -/
theorem c7_retry :
    (∀ b1 b2 : String,
      safe_request [.status 429 b1, .status 200 b2] =
        (some (.status 200 b2), [60])) ∧
    (∀ (b : String) (rest : List Resp),
      safe_request (.status 429 b :: rest) =
        ((safe_request rest).1, 60 :: (safe_request rest).2)) ∧
    (∀ (k : Nat) (b : String) (rest : List Resp),
      safe_request (List.replicate k (.status 429 b) ++ rest) =
        ((safe_request rest).1, List.replicate k 60 ++ (safe_request rest).2)) := by
  refine ⟨fun b1 b2 => rfl, safe_request_429, ?_⟩
  intro k b rest
  induction k with
  | zero => simp
  | succ n ih =>
    rw [List.replicate_succ, List.cons_append, safe_request_429, ih]
    simp [List.replicate_succ]

/-- C8: a 404 response is terminal — `safe_request` returns `None`, does
not sleep, and never consumes (retries into) any further response,
whatever would follow. -/
theorem c8_terminal_404 :
    ∀ (b : String) (rest : List Resp),
      safe_request (.status 404 b :: rest) = (none, []) :=
  fun _ _ => rfl

/-- C1, counterexample: for a profile whose follower count is stored as
`None` ("unset"), the engagement-rate expression raises `TypeError`
(`max(None, 1)`) instead of flooring the count at 1 as the claim states
(which would give `(5 + 0) / 1 * 100`). -/
theorem c1_counterexample :
    engagement_rate p0 prof0 = Except.error PyErr.typeError ∧
    engagement_rate p0 prof0 ≠ Except.ok ((5 + 0 : ℚ) / 1 * 100) := by
  refine ⟨rfl, ?_⟩
  intro h
  rw [show engagement_rate p0 prof0 = Except.error PyErr.typeError from rfl] at h
  exact Except.noConfusion h

/-- C1, amended: for posts with integer likes/comments, when the
follower count is an integer `f` the engagement rate is
`(likes + comments) / max(f, 1) * 100` (the floor at 1 guards `f = 0`,
so 0 likes, 0 comments and 0 followers give rate 0); when the follower
count is `None` the computation raises `TypeError` rather than flooring
it at 1. -/
theorem c1_amended :
    ∀ (post : PostInfo) (profile : ProfileInfo) (l c f : Int),
      post.likes = Json.num l → post.comments = Json.num c →
      ((profile.followers = Json.num f →
          engagement_rate post profile =
            Except.ok (((l : ℚ) + (c : ℚ)) / ((max f 1 : Int) : ℚ) * 100)) ∧
       (profile.followers = Json.null →
          engagement_rate post profile = Except.error PyErr.typeError)) := by
  intro post profile l c f hl hc
  constructor
  · intro hf
    simp [engagement_rate, asIntE, hl, hc, hf]
  · intro hf
    simp [engagement_rate, asIntE, hl, hc, hf]

/-- Witness for C1: the 0-likes/0-comments/0-followers instance; the
rate the amended claim assigns to it evaluates to 0. -/
theorem c1_witness :
    engagement_rate zPost zProf =
      Except.ok ((((0 : Int) : ℚ) + ((0 : Int) : ℚ)) /
        ((max (0 : Int) 1 : Int) : ℚ) * 100) ∧
    (((0 : Int) : ℚ) + ((0 : Int) : ℚ)) / ((max (0 : Int) 1 : Int) : ℚ) * 100 = 0 :=
  ⟨(c1_amended zPost zProf 0 0 0 rfl rfl).1 rfl, by norm_num⟩

/-- C3, counterexample: on a blob whose `ProfilePage` list is empty (a
missing path segment), `get_profile_info` raises an uncaught
`IndexError` — it returns neither a record nor an error marker. -/
theorem c3_counterexample :
    get_profile_info "t" (some emptyPPBlob) =
      ProfileResult.raised PyErr.indexError ∧
    isRecordOrMarker (get_profile_info "t" (some emptyPPBlob)) = false :=
  ⟨rfl, rfl⟩

/-- C3, amended: `get_profile_info` yields the
`"Failed to fetch profile data"` marker exactly when extraction failed,
never lets a `KeyError` escape (a missing dictionary key becomes the
`"Unexpected data format"` marker), and every outcome is a fully-built
record, one of the two markers, or an uncaught non-`KeyError` exception
(`IndexError`/`TypeError`/`AttributeError` from a wrongly-shaped path) —
never a partially populated record. -/
theorem c3_all_or_nothing :
    ∀ (now : String) (shared : Option Json),
      (shared = none →
        get_profile_info now shared =
          .errorMarker "Failed to fetch profile data") ∧
      (get_profile_info now shared ≠ .raised .keyError) ∧
      ((∃ p, get_profile_info now shared = .ok p) ∨
       get_profile_info now shared = .errorMarker "Failed to fetch profile data" ∨
       get_profile_info now shared = .errorMarker "Unexpected data format" ∨
       (∃ e, get_profile_info now shared = .raised e ∧ e ≠ .keyError)) := by
  intro now shared
  cases shared with
  | none => exact ⟨fun _ => rfl, by simp [get_profile_info], Or.inr (Or.inl rfl)⟩
  | some sd =>
    refine ⟨fun hn => by simp at hn, ?_, ?_⟩
    · cases h : buildProfile now sd with
      | ok p => simp [get_profile_info, h]
      | error e => cases e <;> simp [get_profile_info, h]
    · cases h : buildProfile now sd with
      | ok p => exact Or.inl ⟨p, by simp [get_profile_info, h]⟩
      | error e =>
        cases e with
        | keyError =>
          exact Or.inr (Or.inr (Or.inl (by simp [get_profile_info, h])))
        | indexError =>
          exact Or.inr (Or.inr (Or.inr ⟨.indexError,
            by simp [get_profile_info, h], by simp⟩))
        | typeError =>
          exact Or.inr (Or.inr (Or.inr ⟨.typeError,
            by simp [get_profile_info, h], by simp⟩))
        | attributeError =>
          exact Or.inr (Or.inr (Or.inr ⟨.attributeError,
            by simp [get_profile_info, h], by simp⟩))
        | valueError =>
          exact Or.inr (Or.inr (Or.inr ⟨.valueError,
            by simp [get_profile_info, h], by simp⟩))

/-- Witness for C3 (amended): a failed extraction yields exactly the
`"Failed to fetch profile data"` marker. -/
theorem c3_witness :
    get_profile_info "t" none =
      ProfileResult.errorMarker "Failed to fetch profile data" :=
  (c3_all_or_nothing "t" none).1 rfl

/-- C4, counterexample: a blob whose media-edge list has one edge that
is `None` makes `get_recent_posts` raise an uncaught `AttributeError`
(`None.get('node', {})`) instead of returning the claimed
`min(1, 1) = 1`-element sequence. -/
theorem c4_counterexample :
    get_recent_posts (some badEdgesBlob) 1 = Except.error PyErr.attributeError ∧
    isOkOfLength (get_recent_posts (some badEdgesBlob) 1) (min 1 1) = false :=
  ⟨rfl, rfl⟩

/-- C4, amended: for every limit `n` and blob whose media-edge list has
`k` edges, whenever each of the first `min(n, k)` edges projects without
raising, `get_recent_posts` returns exactly those projections — the
first `min(n, k)` edges in order — so the result length is `min(n, k)`;
a malformed edge instead raises an uncaught exception (see the
counterexample). -/
theorem c4_length :
    ∀ (sd : Json) (n : Nat) (edges : List Json) (ps : List PostInfo),
      getEdges sd = Except.ok (Json.arr edges) →
      projectPosts (edges.take n) = Except.ok ps →
      get_recent_posts (some sd) n = Except.ok ps ∧
        ps.length = min n edges.length := by
  intro sd n edges ps h1 h2
  have hb : postsBody sd n = Except.ok ps := by
    simp [postsBody, h1, pySlice, h2]
  refine ⟨by simp [get_recent_posts, hb], ?_⟩
  have hlen := projectPosts_length _ _ h2
  rw [List.length_take] at hlen
  exact hlen.symm

/-- Witness for C4 (amended): three well-formed edges with limit 2 yield
exactly the first two projected records. -/
theorem c4_witness :
    get_recent_posts (some demoPostsBlob) 2 = Except.ok [defaultPost, defaultPost] ∧
    ([defaultPost, defaultPost] : List PostInfo).length =
      min 2 ([Json.obj [], Json.obj [], Json.obj []] : List Json).length :=
  c4_length demoPostsBlob 2 [Json.obj [], Json.obj [], Json.obj []]
    [defaultPost, defaultPost] rfl rfl

/-- C5, counterexample: on a blob whose `ProfilePage` list is empty (a
missing path segment), `get_recent_posts` raises an uncaught
`IndexError` instead of returning the empty sequence. -/
theorem c5_counterexample :
    get_recent_posts (some emptyPPBlob) 6 = Except.error PyErr.indexError ∧
    get_recent_posts (some emptyPPBlob) 6 ≠ Except.ok [] := by
  refine ⟨rfl, ?_⟩
  intro h
  rw [show get_recent_posts (some emptyPPBlob) 6 = Except.error PyErr.indexError
    from rfl] at h
  exact Except.noConfusion h

/-- C5, amended: `get_recent_posts` returns the empty sequence (not an
error marker — its result type has none) when extraction returned
nothing, and whenever any `KeyError` arises while processing the blob
(a missing dictionary key anywhere in the `try` block); no `KeyError`
ever escapes.  However, an empty `ProfilePage` list raises an uncaught
`IndexError` instead (see the counterexample). -/
theorem c5_degrade :
    ∀ (n : Nat) (sd : Json),
      get_recent_posts none n = Except.ok [] ∧
      (postsBody sd n = Except.error PyErr.keyError →
        get_recent_posts (some sd) n = Except.ok []) ∧
      get_recent_posts (some sd) n ≠ Except.error PyErr.keyError := by
  intro n sd
  refine ⟨rfl, fun h => by simp [get_recent_posts, h], ?_⟩
  cases h : postsBody sd n with
  | ok l => simp [get_recent_posts, h]
  | error e => cases e <;> simp [get_recent_posts, h]

/-- Witness for C5 (amended): a blob missing the `entry_data` key (a
`KeyError` on the first path segment) degrades to the empty list. -/
theorem c5_witness : get_recent_posts (some (Json.obj [])) 6 = Except.ok [] :=
  (c5_degrade 6 (Json.obj [])).2.1 rfl

theorem dropWhile_head_false {p : Char → Bool} :
    ∀ (l : List Char) (d : Char), (l.dropWhile p).head? = some d → p d = false := by
  intro l
  induction l with
  | nil => intro d h; simp [List.dropWhile] at h
  | cons c rest ih =>
    intro d h
    cases hpc : p c with
    | true =>
      simp only [List.dropWhile_cons, hpc, if_true] at h
      exact ih d h
    | false =>
      simp only [List.dropWhile_cons, hpc] at h
      simp at h
      exact h ▸ hpc

theorem takeWhile_append_all {p : Char → Bool} :
    ∀ (w post : List Char), (∀ x ∈ w, p x = true) →
      (∀ d, post.head? = some d → p d = false) →
      (w ++ post).takeWhile p = w := by
  intro w
  induction w with
  | nil =>
    intro post _ hpost
    cases post with
    | nil => rfl
    | cons d r =>
      have hd := hpost d rfl
      simp [List.takeWhile_cons, hd]
  | cons x w ih =>
    intro post hall hpost
    have hx : p x = true := hall x (by simp)
    simp only [List.cons_append, List.takeWhile_cons, hx, if_true,
      List.cons.injEq, true_and]
    exact ih post (fun y hy => hall y (by simp [hy])) hpost

theorem findTokens_mem_cons (m c : Char) (rest t : List Char)
    (h : t ∈ findTokens m rest) : t ∈ findTokens m (c :: rest) := by
  simp only [findTokens]
  by_cases hc : c = m ∧ rest.takeWhile isWordChar ≠ []
  · rw [if_pos hc]; exact List.mem_cons_of_mem _ h
  · rw [if_neg hc]; exact h

theorem findTokens_sound (m : Char) :
    ∀ (caption t : List Char),
      t ∈ findTokens m caption → isTokenOf m caption t := by
  intro caption
  induction caption with
  | nil => intro t h; simp [findTokens] at h
  | cons c rest ih =>
    intro t h
    simp only [findTokens] at h
    by_cases hc : c = m ∧ rest.takeWhile isWordChar ≠ []
    · rw [if_pos hc] at h
      rcases List.mem_cons.mp h with h1 | h1
      · refine ⟨[], rest.takeWhile isWordChar, rest.dropWhile isWordChar,
          h1, hc.2, ?_, ?_, ?_⟩
        · intro x hx; exact List.mem_takeWhile_imp hx
        · rw [h1, List.nil_append, List.cons_append,
            List.takeWhile_append_dropWhile, hc.1]
        · exact fun d hd => dropWhile_head_false rest d hd
      · rcases ih t h1 with ⟨pre, w, post, h2, h3, h4, h5, h6⟩
        exact ⟨c :: pre, w, post, h2, h3, h4, by rw [h5]; simp, h6⟩
    · rw [if_neg hc] at h
      rcases ih t h with ⟨pre, w, post, h2, h3, h4, h5, h6⟩
      exact ⟨c :: pre, w, post, h2, h3, h4, by rw [h5]; simp, h6⟩

theorem findTokens_complete_aux (m : Char) (w post : List Char)
    (hw : w ≠ []) (hall : ∀ x ∈ w, isWordChar x = true)
    (hmax : ∀ d, post.head? = some d → isWordChar d = false) :
    ∀ pre : List Char, (m :: w) ∈ findTokens m (pre ++ (m :: w) ++ post) := by
  intro pre
  induction pre with
  | nil =>
    have htw : (w ++ post).takeWhile isWordChar = w :=
      takeWhile_append_all w post hall hmax
    simp only [List.nil_append, List.cons_append]
    simp [findTokens, htw, hw]
  | cons x pre ih =>
    simp only [List.cons_append] at ih ⊢
    exact findTokens_mem_cons m x _ _ ih

theorem findTokens_complete (m : Char) :
    ∀ (caption t : List Char),
      isTokenOf m caption t → t ∈ findTokens m caption := by
  rintro caption t ⟨pre, w, post, h1, h2, h3, h4, h5⟩
  subst h1
  subst h4
  exact findTokens_complete_aux m w post h2 h3 h5 pre

/-- C2: for every caption, the deduplicated hashtag (resp. mention)
extraction contains no duplicates and holds exactly the `#`-tokens
(resp. `@`-tokens) of the caption — each token being the marker followed
by a maximal non-empty run of word characters, occurring verbatim (so
with its original casing) in the caption. -/
theorem c2_token_extraction :
    ∀ caption : List Char,
      ((findTokens '#' caption).dedup.Nodup ∧
        ∀ t, t ∈ (findTokens '#' caption).dedup ↔ isTokenOf '#' caption t) ∧
      ((findTokens '@' caption).dedup.Nodup ∧
        ∀ t, t ∈ (findTokens '@' caption).dedup ↔ isTokenOf '@' caption t) := by
  intro caption
  refine ⟨⟨List.nodup_dedup _, fun t => ?_⟩,
          ⟨List.nodup_dedup _, fun t => ?_⟩⟩ <;>
  · rw [List.mem_dedup]
    exact ⟨findTokens_sound _ caption t, findTokens_complete _ caption t⟩

@[simp] theorem dictGet_obj (kvs : List (String × Json)) (k : String) (d : Json) :
    dictGet (.obj kvs) k d = .ok ((kvs.lookup k).getD d) := rfl

theorem projectUser_biography (now : String) (kvs : List (String × Json))
    (p : ProfileInfo) (h : projectUser now (.obj kvs) = Except.ok p) :
    p.biography = (kvs.lookup "biography").getD .null := by
  simp only [projectUser, dictGet_obj, except_ok_bind] at h
  cases h1 : dictGet ((kvs.lookup "edge_followed_by").getD (Json.obj []))
      "count" Json.null with
  | error e => rw [h1] at h; simp at h
  | ok fw =>
    rw [h1] at h
    simp only [except_ok_bind] at h
    cases h2 : dictGet ((kvs.lookup "edge_follow").getD (Json.obj []))
        "count" Json.null with
    | error e => rw [h2] at h; simp at h
    | ok fl =>
      rw [h2] at h
      simp only [except_ok_bind] at h
      cases h3 : dictGet ((kvs.lookup "edge_owner_to_timeline_media").getD
          (Json.obj [])) "count" Json.null with
      | error e => rw [h3] at h; simp at h
      | ok pm =>
        rw [h3] at h
        simp only [except_ok_bind, except_pure_eq, Except.ok.injEq] at h
        rw [← h]

/-- C9: when the user entity's `biography` key is absent or holds
`null`, a successful projection stores `None` (not the empty string) in
the record's biography, and the email extraction applied to that record
raises `TypeError` (`re.findall` over a non-string) instead of returning
an empty result set. -/
theorem c9_null_biography :
    ∀ (now : String) (kvs : List (String × Json)) (p : ProfileInfo),
      (kvs.lookup "biography" = none ∨ kvs.lookup "biography" = some Json.null) →
      projectUser now (Json.obj kvs) = Except.ok p →
      p.biography = Json.null ∧
        extract_emails_pair (ProfileResult.ok p) = Except.error PyErr.typeError := by
  intro now kvs p hb hp
  have h1 : p.biography = Json.null := by
    have h2 := projectUser_biography now kvs p hp
    rcases hb with hb | hb <;> rw [hb] at h2 <;> simpa using h2
  refine ⟨h1, ?_⟩
  simp [extract_emails_pair, h1]

/-- Witness for C9: a user object carrying only a `username`. -/
theorem c9_witness :
    c9Rec.biography = Json.null ∧
      extract_emails_pair (ProfileResult.ok c9Rec) = Except.error PyErr.typeError :=
  c9_null_biography "t" [("username", Json.str "u")] c9Rec (Or.inl rfl) rfl

/-- C10: for every biography text, the email extraction produces a
snapshot write exactly when the scan found at least one match, the
written `emails_found` list is the raw scan-order match list (duplicates
included), and the value returned to the caller holds exactly the set of
matched addresses with no duplicates. -/
theorem c10_email_snapshot :
    ∀ (p : ProfileInfo) (bio : String),
      p.biography = Json.str bio →
      ∃ ret w, extract_emails_pair (ProfileResult.ok p) = Except.ok (ret, w) ∧
        ((w ≠ none) ↔ findEmails bio ≠ []) ∧
        (∀ raw, w = some raw → raw = findEmails bio) ∧
        ret.Nodup ∧ (∀ e, e ∈ ret ↔ e ∈ findEmails bio) := by
  intro p bio hb
  refine ⟨(findEmails bio).dedup,
    if (findEmails bio).isEmpty then none else some (findEmails bio),
    ?_, ?_, ?_, List.nodup_dedup _, fun e => List.mem_dedup⟩
  · simp [extract_emails_pair, hb]
  · by_cases h : (findEmails bio).isEmpty
    · simp [h, List.isEmpty_iff.mp h]
    · simp [h, List.isEmpty_iff.not.mp h]
  · intro raw hr
    by_cases h : (findEmails bio).isEmpty
    · rw [if_pos h] at hr; exact absurd hr (by simp)
    · rw [if_neg h] at hr; exact (Option.some.injEq _ _ ▸ hr).symm

/-- Witness for C10: a biography mentioning the same address twice — the
snapshot keeps both occurrences, the returned list only one. -/
theorem c10_witness :
    ∃ ret w, extract_emails_pair (ProfileResult.ok p10) = Except.ok (ret, w) ∧
      ((w ≠ none) ↔ findEmails "mail me at bob@site.org and bob@site.org" ≠ []) ∧
      (∀ raw, w = some raw →
        raw = findEmails "mail me at bob@site.org and bob@site.org") ∧
      ret.Nodup ∧
      (∀ e, e ∈ ret ↔ e ∈ findEmails "mail me at bob@site.org and bob@site.org") :=
  c10_email_snapshot p10 "mail me at bob@site.org and bob@site.org" rfl

set_option maxRecDepth 100000

/-- C6: on the synthetic blob with 100 followers and two posts with
likes 10/20 and comments 1/2, the generated report contains the lines
`Total Likes: 30`, `Total Comments: 3` and `Avg Likes/Post: 15` (average
by integer division), a non-empty report path is persisted (the last
write is the report text at that path) and the returned text is the
persisted body with the saved-path line appended after it. -/
theorem c6_report :
    match generate_report (some synBlob) "target" "2024-01-01 00:00:00"
        "20240101_000000" "/base" with
    | Except.ok out =>
        strContains out.report "Total Likes: 30" = true ∧
        strContains out.report "Total Comments: 3" = true ∧
        strContains out.report "Avg Likes/Post: 15" = true ∧
        out.reportPath ≠ "" ∧
        out.writes.getLast? = some (out.reportPath, .reportText out.savedReport) ∧
        out.report = out.savedReport ++ "\n\n✅ Report saved to: " ++
          out.reportPath ++ "\n👩‍💻 Tool created by AvaBlix"
    | Except.error _ => False := by
  exact ⟨rfl, rfl, rfl, by decide, rfl, rfl⟩
